import Mathlib

/-!
Verification development for the Janus recorder core (`record.c`).

The recorder streams a structured recording to a remote TCP sink:
`janus_recorder_create` classifies the codec, connects, and sends a
filename handshake followed by the container header; repeated
`janus_recorder_save_frame` calls lazily emit a JSON metadata block and
then one frame record per call; `janus_recorder_close` test-and-sets the
`writable` flag and optionally renames the recording to strip a
temporary extension.  The definitions below are a shallow embedding of
that C code: machine integers become `Nat`/`Int` with explicit `% 2^w`
where overflow matters, the TCP transport is modelled at the syscall
interface (a list of `sendto` results, resp. per-send success booleans),
and each function mirrors the source's control flow branch by branch.
-/

namespace Record

/-! ### Byte-level encoders (as produced by `memcpy`/`htons`/`htonll`) -/

/-- The bytes of an ASCII C string. -/
def strBytes (s : String) : List Nat := s.data.map Char.toNat

/-- `static const char *header = "MJR00001"` — the container magic tag. -/
def magic : List Nat := strBytes "MJR00001"

/-- `static const char *frame_header = "MEETECHO"` — the per-frame tag. -/
def frameTag : List Nat := strBytes "MEETECHO"

/-- A native C `int` copied into the buffer with `memcpy` on a
little-endian host: four bytes, least significant first. -/
def int32le (n : Nat) : List Nat :=
  [n % 256, n / 256 % 256, n / 65536 % 256, n / 16777216 % 256]

/-- `htons` of a value cast to `uint16_t`, then `memcpy`: two bytes,
big-endian, of the value reduced mod 2^16. -/
def be16 (n : Nat) : List Nat := [n % 65536 / 256, n % 256]

/-- Decode a 2-byte big-endian field (the reader's view of `be16`). -/
def be16dec : List Nat → Nat
  | [a, b] => 256 * a + b
  | _ => 0

/-- `htonll` of a `gint64`, then `memcpy`: eight bytes, big-endian, of
the value reduced mod 2^64. -/
def be64 (n : Nat) : List Nat :=
  let m := n % 18446744073709551616
  [m / 72057594037927936 % 256, m / 281474976710656 % 256,
   m / 1099511627776 % 256, m / 4294967296 % 256,
   m / 16777216 % 256, m / 65536 % 256, m / 256 % 256, m % 256]

/-! ### Codec classification (`janus_recorder_create`, first block) -/

/-- `janus_recorder_medium`. -/
inductive Medium
  | audio
  | video
  | data
deriving DecidableEq

/-- `tolower` on a byte, as `strcasecmp` applies it (ASCII). -/
def lowerCode (n : Nat) : Nat :=
  if 65 ≤ n ∧ n ≤ 90 then n + 32 else n

/-- `!strcasecmp(a, b)`: equality of the byte strings after `tolower`
on every byte. -/
def eqci (a b : String) : Bool :=
  (strBytes a).map lowerCode == (strBytes b).map lowerCode

/-- The codec-classification block of `janus_recorder_create`
(record.c:92-105): `vp8|vp9|h264` → video, `opus|g711|pcmu|pcma|g722` →
audio, `text` → data, anything else rejected (`NULL` return). -/
def codec_classify (codec : String) : Option Medium :=
  if eqci codec "vp8" || eqci codec "vp9" || eqci codec "h264" then
    some .video
  else if eqci codec "opus" || eqci codec "g711" || eqci codec "pcmu"
      || eqci codec "pcma" || eqci codec "g722" then
    some .audio
  else if eqci codec "text" then
    some .data
  else
    none

/-- The spec's classification table, read with case-insensitive
matching (the amended form of the claim); to be compared with
`codec_classify`. -/
def classify_spec (s : String) : Option Medium :=
  let l := (strBytes s).map lowerCode
  if l = strBytes "vp8" ∨ l = strBytes "vp9" ∨ l = strBytes "h264" then
    some .video
  else if l = strBytes "opus" ∨ l = strBytes "g711" ∨ l = strBytes "pcmu"
      ∨ l = strBytes "pcma" ∨ l = strBytes "g722" then
    some .audio
  else if l = strBytes "text" then
    some .data
  else
    none

/-! ### Creation-phase emission (`janus_recorder_create`, socket part) -/

/-- The framing used by `janus_recorder_create` for its two messages: a
native 4-byte length (`memcpy` of an `int`) followed by the payload
(record.c:232-251). -/
def lenPrefixed (payload : List Nat) : List Nat :=
  int32le payload.length ++ payload

/-- All bytes a successful `janus_recorder_create` emits to the sink:
the filename handshake message, then the container-header message, each
with a 4-byte native length prefix (record.c:232-251). -/
def create_emission (fname : String) : List Nat :=
  lenPrefixed (strBytes fname) ++ lenPrefixed magic

/-- Environment for one `janus_recorder_create` call: whether `connect`
and the two `send_tcp_content` calls succeed. -/
structure CreateEnv where
  connectOk : Bool
  send1Ok : Bool
  send2Ok : Bool
deriving DecidableEq

/-- `janus_recorder_create` (record.c:86-266), at the granularity the
claims need: the codec gate, then the connect/handshake/header sends;
any failure returns `none` (the C code returns `NULL`).  A successful
creation yields the media type and the bytes emitted to the sink;
bytes pushed before a failed creation are not tracked (the claims only
quantify over successful creations). -/
def janus_recorder_create (codec : String) (fname : String) (env : CreateEnv) :
    Option (Medium × List Nat) :=
  match codec_classify codec with
  | none => none
  | some ty =>
    if env.connectOk = false then none
    else if env.send1Ok = false then none
    else if env.send2Ok = false then none
    else some (ty, create_emission fname)

/-! ### `send_tcp_content` (record.c:414-426)

The loop is modelled against the syscall interface: `outs` is the list
of successive `sendto` return values (`ssize_t`).  `sent` has C type
`size_t`, so storing a negative return wraps mod 2^64 and the
`if(sent<0)` test compares unsigned values; the `int` return value
truncates `sentoffset` to 32 bits.  The second result component lists,
per successful `sendto`, the `(offset, count)` chunk of the caller's
buffer handed to the transport. -/

/-- `ssize_t` → `size_t` conversion: reduce mod 2^64. -/
def toSizeT (r : Int) : Nat := (r % 18446744073709551616).toNat

/-- `size_t` → `int` conversion: truncate to 32 bits, two's complement. -/
def toCInt (n : Nat) : Int :=
  let m := n % 4294967296
  if m < 2147483648 then (m : Int) else (m : Int) - 4294967296

/-- The `while(sentoffset<len)` loop of `send_tcp_content`; `none` means
the modelled `sendto` outcomes ran out while the loop was still
running. -/
def sendLoop (len : Nat) : List Int → Nat → List (Nat × Nat) →
    Option (Int × List (Nat × Nat))
  | [], off, acc =>
    if off < len then none else some (toCInt off, acc)
  | r :: rest, off, acc =>
    if off < len then
      let sent : Nat := toSizeT r
      let acc2 := if 0 ≤ r then acc ++ [(off, r.toNat)] else acc
      if sent < 0 then some (-1, acc2)
      else sendLoop len rest ((off + sent) % 18446744073709551616) acc2
    else some (toCInt off, acc)

/-- `send_tcp_content(sfd, buf, len)` under the `sendto` outcomes
`outs`. -/
def send_tcp_content (len : Nat) (outs : List Int) :
    Option (Int × List (Nat × Nat)) :=
  sendLoop len outs 0 []

/-! ### `janus_recorder_save_frame` (record.c:268-366)

The recorder state and the observable actions of one call.  Each
`send_tcp_content` invocation is modelled at its interface: either the
transport accepts the whole buffer (the call returns its nonnegative
length) or `sendto` fails on the first chunk (the call returns a
negative value with no bytes emitted); the per-call oracle `sendOk`
lists these outcomes in order, an exhausted oracle meaning success.
The JSON metadata text produced by `json_dumps` is carried as the
opaque byte list `infoText`. -/

/-- The mutable recorder fields `janus_recorder_save_frame` reads and
writes (`type`, `tcpsock`, `writable`, `header`).  Note that the C code
never resets `tcpsock` after `close(fd)`, so the field keeps its value
even once the descriptor is closed. -/
structure Recorder where
  typ : Medium
  tcpsock : Int
  writable : Bool
  header : Bool
deriving DecidableEq

/-- Which call site a sink write came from. -/
inductive Kind
  | meta
  | ftag
  | flen
  | fts
  | fpay
deriving DecidableEq

/-- Observable actions of a call, in program order: mutex operations,
`close(tcpsock)`, and bytes handed to `send_tcp_content`. -/
inductive Ev
  | lock
  | unlock
  | closeSock
  | sent (k : Kind) (bs : List Nat)
deriving DecidableEq

/-- Per-call environment: metadata text, `janus_get_real_time()`, and
the send-outcome oracle. -/
structure Env where
  infoText : List Nat
  now : Nat
  sendOk : List Bool
deriving DecidableEq

/-- Result of one `janus_recorder_save_frame` call. -/
structure CallResult where
  ret : Int
  rc : Recorder
  evs : List Ev
deriving DecidableEq

/-- Pop the next send outcome; an exhausted oracle means success. -/
def popSend (o : List Bool) : Bool × List Bool :=
  match o with
  | [] => (true, [])
  | b :: rest => (b, rest)

/-- The value put in the 2-byte frame length field before the `htons`
cast: `type == JANUS_RECORDER_DATA ? length + sizeof(gint64) : length`
(record.c:330). -/
def frameLen (ty : Medium) (length : Nat) : Nat :=
  if ty = .data then length + 8 else length

/-- The payload send at the end of `janus_recorder_save_frame`
(record.c:346-351): on failure the code unlocks, closes the socket and
returns -5; on success it unlocks and returns 0. -/
def savePayload (r : Recorder) (buf : List Nat) (pre : List Ev)
    (o : List Bool) : CallResult :=
  if (popSend o).1 = false then
    ⟨-5, r, [Ev.lock] ++ pre ++ [Ev.unlock, Ev.closeSock]⟩
  else
    ⟨0, r, [Ev.lock] ++ pre ++ [Ev.sent .fpay buf, Ev.unlock]⟩

/-- The frame-record sends of `janus_recorder_save_frame`
(record.c:322-351): tag, 2-byte length field, the data-only timestamp,
then the payload.  On the tag, length and timestamp failure paths the
code closes the socket and returns -5 *without unlocking the mutex*
(record.c:325-342). -/
def saveFrames (r : Recorder) (buf : List Nat) (env : Env)
    (pre : List Ev) (o : List Bool) : CallResult :=
  if (popSend o).1 = false then
    ⟨-5, r, [Ev.lock] ++ pre ++ [Ev.closeSock]⟩
  else if (popSend (popSend o).2).1 = false then
    ⟨-5, r, [Ev.lock] ++ pre ++ [Ev.sent .ftag frameTag] ++ [Ev.closeSock]⟩
  else if r.typ = .data then
    if (popSend (popSend (popSend o).2).2).1 = false then
      ⟨-5, r, [Ev.lock] ++ pre ++ [Ev.sent .ftag frameTag]
        ++ [Ev.sent .flen (be16 (frameLen r.typ buf.length))]
        ++ [Ev.closeSock]⟩
    else
      savePayload r buf (pre ++ [Ev.sent .ftag frameTag]
        ++ [Ev.sent .flen (be16 (frameLen r.typ buf.length))]
        ++ [Ev.sent .fts (be64 env.now)])
        (popSend (popSend (popSend o).2).2).2
  else
    savePayload r buf (pre ++ [Ev.sent .ftag frameTag]
      ++ [Ev.sent .flen (be16 (frameLen r.typ buf.length))])
      (popSend (popSend o).2).2

/-- `janus_recorder_save_frame(recorder, buffer, length)`
(record.c:268-366) for a non-`NULL` recorder; `payload = none` models a
`NULL` buffer, and `length` is the payload size.  The mutex is taken
first; the argument check, the `tcpsock < 2` check and the `writable`
check unlock before returning; the lazy metadata block (2-byte `htons`
length + JSON text) is sent while `header` is still unset, and its
failure path closes the socket and returns -5 *without unlocking*
(record.c:309-313). -/
def janus_recorder_save_frame (r : Recorder) (payload : Option (List Nat))
    (env : Env) : CallResult :=
  match payload with
  | none => ⟨-2, r, [Ev.lock, Ev.unlock]⟩
  | some buf =>
    if buf.length < 1 then ⟨-2, r, [Ev.lock, Ev.unlock]⟩
    else if r.tcpsock < 2 then ⟨-3, r, [Ev.lock, Ev.unlock]⟩
    else if r.writable = false then
      ⟨-4, r, [Ev.lock, Ev.closeSock, Ev.unlock]⟩
    else if r.header = false then
      if (popSend env.sendOk).1 = false then ⟨-5, r, [Ev.lock, Ev.closeSock]⟩
      else
        saveFrames { r with header := true } buf env
          [Ev.sent .meta (be16 env.infoText.length ++ env.infoText)]
          (popSend env.sendOk).2
    else
      saveFrames r buf env [] env.sendOk

/-- Sequential composition of `janus_recorder_save_frame` calls on one
recorder — the behaviour the per-recorder mutex serializes concurrent
callers into. -/
def runCalls (r : Recorder) : List (Option (List Nat) × Env) →
    Recorder × List Ev
  | [] => (r, [])
  | (p, e) :: rest =>
    let c := janus_recorder_save_frame r p e
    let s := runCalls c.rc rest
    (s.1, c.evs ++ s.2)

/-! ### Trace observations -/

/-- Mutex acquisitions. -/
def isLock : Ev → Bool
  | .lock => true
  | _ => false

/-- Mutex releases. -/
def isUnlock : Ev → Bool
  | .unlock => true
  | _ => false

/-- Acquisitions minus releases in a trace. -/
def lockBalance (t : List Ev) : Int :=
  ((t.filter isLock).length : Int) - ((t.filter isUnlock).length : Int)

/-- Is this event a sink write from call site `k`? -/
def isKind (k : Kind) : Ev → Bool
  | .sent k2 _ => k2 == k
  | _ => false

/-- Number of sink writes from call site `k` in a trace. -/
def kindCount (k : Kind) (t : List Ev) : Nat :=
  (t.filter (isKind k)).length

/-- The bytes a trace puts on the wire, in order. -/
def wire (t : List Ev) : List Nat :=
  (t.filterMap (fun e => match e with
    | .sent _ bs => some bs
    | _ => none)).flatten

/-- Scans a trace: `true` iff no frame-tag write occurs strictly before
the first metadata write (vacuously `true` when there is no frame-tag
write at all). -/
def metaBeforeFrame : List Ev → Bool
  | [] => true
  | e :: rest =>
    if isKind .ftag e then false
    else if isKind .meta e then true
    else metaBeforeFrame rest

/-- The sink writes belonging to frame records (everything but the
metadata block). -/
def isFrameEv : Ev → Bool
  | .sent .meta _ => false
  | .sent _ _ => true
  | _ => false

/-- Restrict a trace to its frame-record sink writes. -/
def frameEvs (t : List Ev) : List Ev := t.filter isFrameEv

/-- The sink writes of one complete frame record, as emitted by a fully
successful `janus_recorder_save_frame`: tag, 2-byte length field, the
data-only timestamp, then the payload. -/
def frameRecordEvs (ty : Medium) (buf : List Nat) (env : Env) : List Ev :=
  [Ev.sent .ftag frameTag, Ev.sent .flen (be16 (frameLen ty buf.length))] ++
  (if ty = .data then [Ev.sent .fts (be64 env.now)] else []) ++
  [Ev.sent .fpay buf]

/-- Invariant tying the `header` flag to the trace emitted so far: while
the flag is unset nothing of the metadata block or of any frame record
has reached the sink; once it is set the metadata block has been written
exactly once, and no frame tag preceded it. -/
def MetaInv (r : Recorder) (t : List Ev) : Prop :=
  (r.header = false → kindCount .meta t = 0 ∧ kindCount .ftag t = 0) ∧
  (r.header = true → kindCount .meta t = 1 ∧ metaBeforeFrame t = true)

/-! ### `janus_recorder_close` (record.c:368-406)

Filenames are byte strings (`List Char`).  The mutex is held around the
whole body; the events record the `close(tcpsock)` and the `rename`
syscall. -/

/-- The recorder fields `janus_recorder_close` reads and writes. -/
structure CloseState where
  writable : Bool
  tcpsock : Int
  filename : List Char
  dir : Option (List Char)
deriving DecidableEq

/-- Process-wide naming policy set by `janus_recorder_init`:
`rec_tempname` and `rec_tempext`. -/
structure Policy where
  tempname : Bool
  tempext : List Char
deriving DecidableEq

/-- Side effects of one `janus_recorder_close` call. -/
inductive CEv
  | closeSock
  | renameOp (oldpath newpath : List Char)
deriving DecidableEq

/-- The untagged name computed at record.c:384:
`g_snprintf(newname, strlen(filename) - strlen(rec_tempext), "%s",
filename)` writes at most `size - 1` characters, i.e. the first
`strlen(filename) - strlen(rec_tempext) - 1` characters of the tagged
filename.  (Sizes stay within `size_t` range in the modelled use, so
`Nat` truncated subtraction agrees with the C arithmetic.) -/
def stripTemp (filename ext : List Char) : List Char :=
  filename.take (filename.length - ext.length - 1)

/-- `"%s/%s"` path composition of record.c:390-394 (plain `"%s"` when
the recorder has no directory). -/
def fullPath (dir : Option (List Char)) (name : List Char) : List Char :=
  match dir with
  | some d => d ++ ('/' :: name)
  | none => name

/-- `janus_recorder_close(recorder)` (record.c:368-406) for a non-`NULL`
recorder: the atomic compare-and-exchange on `writable` gates the whole
body (immediate -1 when already closed); then, under the mutex, the
socket is closed and — when the temp-name policy is active — the tagged
path is renamed to the untagged one, the stored filename being updated
only when `rename` succeeds. -/
def janus_recorder_close (p : Policy) (s : CloseState) (renameOk : Bool) :
    Int × CloseState × List CEv :=
  if s.writable = false then (-1, s, [])
  else
    let s0 : CloseState := { s with writable := false }
    let e1 := if s.tcpsock > 0 then [CEv.closeSock] else []
    if p.tempname = false then (0, s0, e1)
    else
      let newname := stripTemp s.filename p.tempext
      let e2 := e1 ++ [CEv.renameOp (fullPath s.dir s.filename)
                                    (fullPath s.dir newname)]
      if renameOk then (0, { s0 with filename := newname }, e2)
      else (0, s0, e2)

/-- A concrete 65536-byte zero payload, used as an input exercising the
16-bit truncation of the frame length field. -/
def bigbuf : List Nat := List.replicate 65536 0

/-- `close(tcpsock)` side effects of `janus_recorder_close`. -/
def isCloseSock : CEv → Bool
  | .closeSock => true
  | _ => false

/-- `rename` side effects of `janus_recorder_close`. -/
def isRename : CEv → Bool
  | .renameOp _ _ => true
  | _ => false

/-! ## Theorems -/

/-! ### C3 — `send_tcp_content` error handling -/

/-- C3: the `if(sent<0)` check of `send_tcp_content` is dead code
(`sent` has unsigned type `size_t`), so a hard `sendto` error is not
surfaced.  Concretely, for a 10-byte buffer with `sendto` outcomes
4, -1 (hard error), 7, the offset wraps from 4 back to 3, the loop
resends from offset 3 (so byte 3 reaches the transport twice) and the
function returns 10 — a success report — instead of a failure. -/
theorem send_tcp_content_error_swallowed :
    send_tcp_content 10 [4, -1, 7] = some (10, [(0, 4), (3, 7)]) := by decide

/-! ### C2 — lock discipline of `janus_recorder_save_frame` -/

/-- C2: the frame-tag send-failure path of `janus_recorder_save_frame`
returns -5 with the mutex still held: on a writable recorder whose
metadata block is already written, a failing first send yields return
value -5 and a trace with one acquisition and no release
(`lockBalance = 1`), so a later call on the same recorder can never
acquire the lock. -/
theorem save_frame_leaks_lock :
    (janus_recorder_save_frame ⟨.audio, 3, true, true⟩ (some [9])
      ⟨[1], 0, [false]⟩).ret = -5 ∧
    lockBalance (janus_recorder_save_frame ⟨.audio, 3, true, true⟩ (some [9])
      ⟨[1], 0, [false]⟩).evs = 1 := by decide

/-! ### C4 — metadata send failure -/

/-- C4: when the metadata block's send fails, the call does return -5
without setting the `header` flag (the state is unchanged), but the
trace is `[lock, closeSock]`: the mutex is never released
(`lockBalance = 1`) and the socket descriptor is closed, so the next
`janus_recorder_save_frame` call on this recorder blocks on the mutex
and cannot retry emitting the metadata block. -/
theorem save_frame_metadata_failure_blocks_retry :
    janus_recorder_save_frame ⟨.audio, 3, true, false⟩ (some [9])
      ⟨[1, 2, 3], 7, [false]⟩ =
      ⟨-5, ⟨.audio, 3, true, false⟩, [Ev.lock, Ev.closeSock]⟩ ∧
    lockBalance [Ev.lock, Ev.closeSock] = 1 := by decide

/-! ### C1 — position of the container magic tag -/

/-- C1 (counterexample): the byte stream of a successful creation does
not begin with the magic tag: for filename `"test1.mjr"` creation
succeeds, but the first 8 bytes on the wire are the 4-byte native
length prefix of the filename-handshake message followed by the first
4 filename bytes, not `"MJR00001"`. -/
theorem create_stream_not_magic_first :
    janus_recorder_create "opus" "test1.mjr" ⟨true, true, true⟩ =
      some (.audio, create_emission "test1.mjr") ∧
    (create_emission "test1.mjr").take 8 ≠ magic := by decide

/-- C1 (amended): for every successful creation the emitted stream is
the length-prefixed filename handshake, then a 4-byte length prefix,
then the exact 8-byte magic tag `"MJR00001"` — so the magic bytes sit
at offset `8 + |filename|`, after the handshake but before any metadata
or frames (which are only emitted by later `janus_recorder_save_frame`
calls, hence after the whole creation stream). -/
theorem create_magic_after_handshake (codec fname : String) (env : CreateEnv)
    (out : Medium × List Nat)
    (h : janus_recorder_create codec fname env = some out) :
    out.2 = lenPrefixed (strBytes fname) ++ (int32le 8 ++ magic) ∧
    out.2.drop (8 + (strBytes fname).length) = magic ∧
    magic = strBytes "MJR00001" ∧ magic.length = 8 := by
  have hout : out.2 = create_emission fname := by
    rcases env with ⟨c1, s1, s2⟩
    unfold janus_recorder_create at h
    rcases hc : codec_classify codec with _ | ty <;> rw [hc] at h <;>
      rcases c1 <;> rcases s1 <;> rcases s2 <;> simp_all <;>
      try exact (congrArg Prod.snd h).symm
  have hm8 : magic.length = 8 := by decide
  have hdecomp : create_emission fname
      = lenPrefixed (strBytes fname) ++ (int32le 8 ++ magic) := by
    unfold create_emission lenPrefixed
    rw [hm8]
  refine ⟨hout.trans hdecomp, ?_, by decide, hm8⟩
  rw [hout, hdecomp]
  have hassoc : lenPrefixed (strBytes fname) ++ (int32le 8 ++ magic)
      = (lenPrefixed (strBytes fname) ++ int32le 8) ++ magic := by
    rw [List.append_assoc]
  have hlen : 8 + (strBytes fname).length
      = (lenPrefixed (strBytes fname) ++ int32le 8).length := by
    simp [lenPrefixed, int32le]
    omega
  rw [hassoc, hlen, List.drop_left]

/-- Witness for `create_magic_after_handshake` at codec `"opus"`,
filename `"a"`, all transport operations succeeding. -/
theorem create_magic_after_handshake_witness :
    (Medium.audio, create_emission "a").2
      = lenPrefixed (strBytes "a") ++ (int32le 8 ++ magic) ∧
    (Medium.audio, create_emission "a").2.drop (8 + (strBytes "a").length)
      = magic ∧
    magic = strBytes "MJR00001" ∧ magic.length = 8 :=
  create_magic_after_handshake "opus" "a" ⟨true, true, true⟩
    (Medium.audio, create_emission "a") (by decide)

/-! ### C7 — invalid-argument path -/

/-- C7 (counterexample): a call with a `NULL` payload does return -2
and puts zero bytes on the sink, but it does take the mutex: the trace
contains one lock acquisition, contradicting "takes no lock". -/
theorem save_frame_null_takes_lock :
    (janus_recorder_save_frame ⟨.audio, 3, true, false⟩ none
      ⟨[1], 0, []⟩).ret = -2 ∧
    wire (janus_recorder_save_frame ⟨.audio, 3, true, false⟩ none
      ⟨[1], 0, []⟩).evs = [] ∧
    ((janus_recorder_save_frame ⟨.audio, 3, true, false⟩ none
      ⟨[1], 0, []⟩).evs.filter isLock).length = 1 := by decide

/-- C7 (amended): a call with a `NULL` payload or a length below 1
always returns -2 (`InvalidArgument`), leaves the recorder unchanged
and puts zero bytes on the sink; the mutex is acquired and released
around the check (one balanced lock/unlock pair), rather than not being
taken at all. -/
theorem save_frame_invalid_arg (r : Recorder) (env : Env) (buf : List Nat)
    (h : buf.length < 1) :
    janus_recorder_save_frame r none env = ⟨-2, r, [Ev.lock, Ev.unlock]⟩ ∧
    janus_recorder_save_frame r (some buf) env
      = ⟨-2, r, [Ev.lock, Ev.unlock]⟩ ∧
    wire [Ev.lock, Ev.unlock] = [] ∧
    lockBalance [Ev.lock, Ev.unlock] = 0 := by
  refine ⟨rfl, ?_, by decide, by decide⟩
  simp only [janus_recorder_save_frame]
  rw [if_pos h]

/-- Witness for `save_frame_invalid_arg` on an audio recorder with an
empty payload. -/
theorem save_frame_invalid_arg_witness :
    janus_recorder_save_frame ⟨.audio, 3, true, false⟩ none ⟨[2], 1, []⟩
      = ⟨-2, ⟨.audio, 3, true, false⟩, [Ev.lock, Ev.unlock]⟩ ∧
    janus_recorder_save_frame ⟨.audio, 3, true, false⟩ (some []) ⟨[2], 1, []⟩
      = ⟨-2, ⟨.audio, 3, true, false⟩, [Ev.lock, Ev.unlock]⟩ ∧
    wire [Ev.lock, Ev.unlock] = [] ∧
    lockBalance [Ev.lock, Ev.unlock] = 0 :=
  save_frame_invalid_arg ⟨.audio, 3, true, false⟩ ⟨[2], 1, []⟩ []
    (by decide)

/-! ### C10 — codec classification -/

/-- C10 (counterexample): `"VP8"` is none of the nine strings the claim
lists, yet classification accepts it (case-insensitive `strcasecmp`)
and creation succeeds, contradicting "any other string causes creation
to fail". -/
theorem codec_classify_case_insensitive :
    codec_classify "VP8" = some .video ∧
    janus_recorder_create "VP8" "x" ⟨true, true, true⟩
      = some (.video, create_emission "x") ∧
    ("VP8" ≠ "vp8" ∧ "VP8" ≠ "vp9" ∧ "VP8" ≠ "h264" ∧ "VP8" ≠ "opus" ∧
     "VP8" ≠ "g711" ∧ "VP8" ≠ "pcmu" ∧ "VP8" ≠ "pcma" ∧ "VP8" ≠ "g722" ∧
     "VP8" ≠ "text") := by decide

/-- C10 (amended): the classification table holds with case-insensitive
matching: a codec whose lowercased bytes are `vp8`, `vp9` or `h264`
yields Video, `opus`, `g711`, `pcmu`, `pcma` or `g722` yields Audio,
`text` yields Data, and every other string is rejected (creation fails
with no recorder handle). -/
theorem codec_classify_eq_spec (s : String) :
    codec_classify s = classify_spec s := by
  have h1 : (strBytes "vp8").map lowerCode = strBytes "vp8" := by decide
  have h2 : (strBytes "vp9").map lowerCode = strBytes "vp9" := by decide
  have h3 : (strBytes "h264").map lowerCode = strBytes "h264" := by decide
  have h4 : (strBytes "opus").map lowerCode = strBytes "opus" := by decide
  have h5 : (strBytes "g711").map lowerCode = strBytes "g711" := by decide
  have h6 : (strBytes "pcmu").map lowerCode = strBytes "pcmu" := by decide
  have h7 : (strBytes "pcma").map lowerCode = strBytes "pcma" := by decide
  have h8 : (strBytes "g722").map lowerCode = strBytes "g722" := by decide
  have h9 : (strBytes "text").map lowerCode = strBytes "text" := by decide
  simp only [codec_classify, classify_spec, eqci, h1, h2, h3, h4, h5, h6,
    h7, h8, h9, Bool.or_eq_true, beq_iff_eq, or_assoc]

/-! ### C6 — frame-record layout -/

/-- The decoded 2-byte length field is the encoded value mod 2^16. -/
theorem be16dec_be16 (n : Nat) : be16dec (be16 n) = n % 65536 := by
  unfold be16 be16dec
  have h1 : n % 65536 % 256 = n % 256 :=
    Nat.mod_mod_of_dvd n (by norm_num)
  calc 256 * (n % 65536 / 256) + n % 256
      = 256 * (n % 65536 / 256) + n % 65536 % 256 := by rw [h1]
    _ = n % 65536 := Nat.div_add_mod (n % 65536) 256

/-- A `savePayload` call that returns 0 took the success branch. -/
theorem savePayload_ret_zero (r : Recorder) (buf : List Nat) (pre : List Ev)
    (o : List Bool) (h : (savePayload r buf pre o).ret = 0) :
    savePayload r buf pre o
      = ⟨0, r, [Ev.lock] ++ pre ++ [Ev.sent .fpay buf, Ev.unlock]⟩ := by
  unfold savePayload at h ⊢
  split_ifs at h ⊢
  · exact absurd h (by simp)
  · rfl

/-- A `saveFrames` call that returns 0 emitted exactly the four (resp.
three) sink writes of one frame record, in order, and released the
lock. -/
theorem saveFrames_ret_zero (r : Recorder) (buf : List Nat) (env : Env)
    (pre : List Ev) (o : List Bool)
    (h : (saveFrames r buf env pre o).ret = 0) :
    saveFrames r buf env pre o
      = ⟨0, r, [Ev.lock] ++ pre ++ frameRecordEvs r.typ buf env
          ++ [Ev.unlock]⟩ := by
  unfold saveFrames at h ⊢
  split_ifs at h ⊢ with c1 c2 c3 c4
  · exact absurd h (by simp)
  · exact absurd h (by simp)
  · exact absurd h (by simp)
  · rw [savePayload_ret_zero _ _ _ _ h]
    simp [frameRecordEvs, c3]
  · rw [savePayload_ret_zero _ _ _ _ h]
    simp [frameRecordEvs, c3]

/-- A `janus_recorder_save_frame` call that returns 0: it sets the
`header` flag if it was unset (emitting the metadata block first), then
emits one frame record and unlocks. -/
theorem save_frame_ret_zero (r : Recorder) (buf : List Nat) (env : Env)
    (h : (janus_recorder_save_frame r (some buf) env).ret = 0) :
    janus_recorder_save_frame r (some buf) env
      = ⟨0, if r.header = false then { r with header := true } else r,
          [Ev.lock] ++
          (if r.header = false
           then [Ev.sent .meta (be16 env.infoText.length ++ env.infoText)]
           else []) ++
          frameRecordEvs r.typ buf env ++ [Ev.unlock]⟩ := by
  simp only [janus_recorder_save_frame] at h ⊢
  split_ifs at h ⊢
  all_goals try simp at h
  all_goals rw [saveFrames_ret_zero _ _ _ _ _ h]

/-- With an exhausted send oracle (every transport operation succeeds)
`saveFrames` takes the full success path. -/
theorem saveFrames_nil_oracle (r : Recorder) (buf : List Nat) (env : Env)
    (pre : List Ev) :
    saveFrames r buf env pre []
      = ⟨0, r, [Ev.lock] ++ pre ++ frameRecordEvs r.typ buf env
          ++ [Ev.unlock]⟩ := by
  rcases hty : r.typ <;>
    simp [saveFrames, savePayload, popSend, frameRecordEvs, hty]

/-- Frame-record writes are untouched by the `frameEvs` filter. -/
theorem frameEvs_frameRecord (ty : Medium) (buf : List Nat) (env : Env) :
    (frameRecordEvs ty buf env).filter isFrameEv
      = frameRecordEvs ty buf env := by
  rcases ty <;>
    simp [frameRecordEvs, isFrameEv, List.filter_append]

/-- C6 (counterexample): on a Data recorder a successful call with a
65536-byte payload emits a length field of `[0, 8]` — which decodes to
8, not to payload length + 8 = 65544: the `htons` + `uint16_t` cast
truncates the length mod 2^16, so the stated equality fails for
payloads that do not fit the 16-bit field. -/
theorem frame_len_field_truncated :
    (janus_recorder_save_frame ⟨.data, 3, true, true⟩ (some bigbuf)
      ⟨[], 0, []⟩).ret = 0 ∧
    (janus_recorder_save_frame ⟨.data, 3, true, true⟩ (some bigbuf)
      ⟨[], 0, []⟩).evs[2]?
      = some (Ev.sent .flen [0, 8]) ∧
    be16dec [0, 8] ≠ bigbuf.length + 8 := by
  have hlen : bigbuf.length = 65536 := by
    unfold bigbuf
    exact List.length_replicate _ _
  have hskip : janus_recorder_save_frame ⟨.data, 3, true, true⟩
      (some bigbuf) ⟨[], 0, []⟩
      = saveFrames ⟨.data, 3, true, true⟩ bigbuf ⟨[], 0, []⟩ [] [] := by
    simp only [janus_recorder_save_frame]
    rw [if_neg (by rw [hlen]; omega), if_neg (by decide),
      if_neg (by decide), if_neg (by decide)]
  have hrun := hskip.trans
    (saveFrames_nil_oracle ⟨.data, 3, true, true⟩ bigbuf ⟨[], 0, []⟩ [])
  refine ⟨by rw [hrun], ?_, ?_⟩
  · rw [hrun]
    show ([Ev.lock] ++ [] ++
        frameRecordEvs (Recorder.mk .data 3 true true).typ bigbuf
          ⟨[], 0, []⟩ ++ [Ev.unlock])[2]?
      = some (Ev.sent .flen [0, 8])
    unfold frameRecordEvs frameLen
    rw [hlen]
    norm_num [be16]
  · rw [hlen]
    decide

/-- C6 (amended): every successful `janus_recorder_save_frame` call
emits exactly one frame record: the 8-byte tag `"MEETECHO"`, a 2-byte
big-endian length field, then for a Data recorder an 8-byte big-endian
microsecond timestamp followed by the payload (the field covering
timestamp + payload), resp. just the payload for Audio/Video; the
decoded length field equals `(payload length + 8) mod 2^16` for Data
and `payload length mod 2^16` otherwise — i.e. the claim's values
whenever they fit in 16 bits. -/
theorem save_frame_record_layout (r : Recorder) (buf : List Nat) (env : Env)
    (h : (janus_recorder_save_frame r (some buf) env).ret = 0) :
    frameEvs (janus_recorder_save_frame r (some buf) env).evs
      = frameRecordEvs r.typ buf env ∧
    frameTag = strBytes "MEETECHO" ∧ frameTag.length = 8 ∧
    be16dec (be16 (frameLen r.typ buf.length))
      = frameLen r.typ buf.length % 65536 ∧
    frameLen r.typ buf.length
      = (if r.typ = .data then buf.length + 8 else buf.length) := by
  refine ⟨?_, by decide, by decide, be16dec_be16 _, rfl⟩
  rw [save_frame_ret_zero r buf env h]
  by_cases hh : r.header = false <;>
    simp [hh, frameEvs, List.filter_append, isFrameEv,
      frameEvs_frameRecord r.typ buf env]

/-- Witness for `save_frame_record_layout`: a successful call on an
audio recorder with payload `[1, 2]`. -/
theorem save_frame_record_layout_witness :
    frameEvs (janus_recorder_save_frame ⟨.audio, 3, true, true⟩
      (some [1, 2]) ⟨[], 0, []⟩).evs
      = frameRecordEvs Medium.audio [1, 2] ⟨[], 0, []⟩ ∧
    frameTag = strBytes "MEETECHO" ∧ frameTag.length = 8 ∧
    be16dec (be16 (frameLen Medium.audio [1, 2].length))
      = frameLen Medium.audio [1, 2].length % 65536 ∧
    frameLen Medium.audio [1, 2].length
      = (if Medium.audio = Medium.data then [1, 2].length + 8
         else [1, 2].length) :=
  save_frame_record_layout ⟨.audio, 3, true, true⟩ [1, 2] ⟨[], 0, []⟩
    (by decide)

/-! ### C5 — the metadata block is emitted once, before any frame -/

/-- `kindCount` distributes over trace concatenation. -/
theorem kindCount_append (k : Kind) (a b : List Ev) :
    kindCount k (a ++ b) = kindCount k a + kindCount k b := by
  unfold kindCount
  rw [List.filter_append, List.length_append]

/-- `kindCount` on a cons cell. -/
theorem kindCount_cons (k : Kind) (e : Ev) (rest : List Ev) :
    kindCount k (e :: rest)
      = (if isKind k e then 1 else 0) + kindCount k rest := by
  unfold kindCount
  rw [List.filter_cons]
  split_ifs <;> simp [Nat.add_comm]

/-- Unfolding equation of `metaBeforeFrame` on a cons cell. -/
theorem metaBeforeFrame_cons (e : Ev) (l : List Ev) :
    metaBeforeFrame (e :: l)
      = if isKind .ftag e then false
        else if isKind .meta e then true
        else metaBeforeFrame l := rfl

/-- A trace with no frame-tag write vacuously has its metadata first. -/
theorem metaBeforeFrame_of_no_ftag (t : List Ev)
    (h : kindCount .ftag t = 0) : metaBeforeFrame t = true := by
  induction t with
  | nil => rfl
  | cons e rest ih =>
    rw [kindCount_cons] at h
    rw [metaBeforeFrame_cons]
    by_cases h1 : isKind .ftag e = true
    · rw [if_pos h1] at h
      omega
    · rw [if_neg h1] at h ⊢
      by_cases h2 : isKind .meta e = true
      · rw [if_pos h2]
      · rw [if_neg h2]
        exact ih (by omega)

/-- Extending a trace that already contains its metadata write keeps
the metadata strictly before any frame tag. -/
theorem metaBeforeFrame_append_of_meta (t u : List Ev)
    (hb : metaBeforeFrame t = true) (hm : 1 ≤ kindCount .meta t) :
    metaBeforeFrame (t ++ u) = true := by
  induction t with
  | nil => exact absurd hm (by decide)
  | cons e rest ih =>
    rw [List.cons_append, metaBeforeFrame_cons]
    rw [metaBeforeFrame_cons] at hb
    rw [kindCount_cons] at hm
    by_cases h1 : isKind .ftag e = true
    · rw [if_pos h1] at hb
      exact absurd hb (by simp)
    · rw [if_neg h1] at hb ⊢
      by_cases h2 : isKind .meta e = true
      · rw [if_pos h2]
      · rw [if_neg h2] at hb ⊢
        rw [if_neg h2] at hm
        exact ih hb (by omega)

/-- A prefix with neither metadata nor frame-tag writes is transparent
for `metaBeforeFrame`. -/
theorem metaBeforeFrame_append_of_silent (t u : List Ev)
    (hm : kindCount .meta t = 0) (hf : kindCount .ftag t = 0) :
    metaBeforeFrame (t ++ u) = metaBeforeFrame u := by
  induction t with
  | nil => rfl
  | cons e rest ih =>
    rw [kindCount_cons] at hm hf
    rw [List.cons_append, metaBeforeFrame_cons]
    by_cases h1 : isKind .ftag e = true
    · rw [if_pos h1] at hf
      omega
    · rw [if_neg h1] at hf ⊢
      by_cases h2 : isKind .meta e = true
      · rw [if_pos h2] at hm
        omega
      · rw [if_neg h2] at hm ⊢
        exact ih (by omega) (by omega)

/-- `saveFrames` returns the recorder it is given. -/
theorem saveFrames_rc (r : Recorder) (buf : List Nat) (env : Env)
    (pre : List Ev) (o : List Bool) :
    (saveFrames r buf env pre o).rc = r := by
  unfold saveFrames savePayload
  split_ifs <;> rfl

/-- `saveFrames` emits no metadata write beyond those already in
`pre`. -/
theorem saveFrames_meta_count (r : Recorder) (buf : List Nat) (env : Env)
    (pre : List Ev) (o : List Bool) :
    kindCount .meta (saveFrames r buf env pre o).evs
      = kindCount .meta pre := by
  unfold saveFrames savePayload
  split_ifs <;>
    simp [kindCount, isKind, List.filter_append]

/-- When `saveFrames` runs right after the metadata write, the whole
call trace has its metadata before any frame tag. -/
theorem saveFrames_metaBeforeFrame (r : Recorder) (buf : List Nat)
    (env : Env) (M : List Nat) (o : List Bool) :
    metaBeforeFrame (saveFrames r buf env [Ev.sent .meta M] o).evs
      = true := by
  unfold saveFrames savePayload
  split_ifs <;> simp [metaBeforeFrame, isKind]

/-- A call on a recorder whose metadata is already written never emits
another metadata block and leaves the flag set. -/
theorem save_frame_header_set (r : Recorder) (p : Option (List Nat))
    (env : Env) (h : r.header = true) :
    (janus_recorder_save_frame r p env).rc.header = true ∧
    kindCount .meta (janus_recorder_save_frame r p env).evs = 0 := by
  rcases p with _ | buf
  · exact ⟨h, by simp [janus_recorder_save_frame, kindCount, isKind]⟩
  · simp only [janus_recorder_save_frame]
    split_ifs with c1 c2 c3 c4 c5
    · exact ⟨h, by simp [kindCount, isKind]⟩
    · exact ⟨h, by simp [kindCount, isKind]⟩
    · exact ⟨h, by simp [kindCount, isKind]⟩
    · rw [c4] at h
      exact Bool.noConfusion h
    · rw [c4] at h
      exact Bool.noConfusion h
    · rw [saveFrames_rc, saveFrames_meta_count]
      exact ⟨h, by simp [kindCount, isKind]⟩

/-- A call on a recorder with unwritten metadata either leaves the
state unchanged with no metadata and no frame-tag writes, or sets the
flag, emits the metadata block exactly once, and emits it before any
frame tag of the call. -/
theorem save_frame_header_unset (r : Recorder) (p : Option (List Nat))
    (env : Env) (h : r.header = false) :
    ((janus_recorder_save_frame r p env).rc = r ∧
     kindCount .meta (janus_recorder_save_frame r p env).evs = 0 ∧
     kindCount .ftag (janus_recorder_save_frame r p env).evs = 0) ∨
    ((janus_recorder_save_frame r p env).rc.header = true ∧
     kindCount .meta (janus_recorder_save_frame r p env).evs = 1 ∧
     metaBeforeFrame (janus_recorder_save_frame r p env).evs = true) := by
  rcases p with _ | buf
  · exact Or.inl ⟨rfl, by simp [janus_recorder_save_frame, kindCount, isKind],
      by simp [janus_recorder_save_frame, kindCount, isKind]⟩
  · simp only [janus_recorder_save_frame]
    split_ifs with c1 c2 c3 c4 hc5
    · exact Or.inl ⟨rfl, by simp [kindCount, isKind],
        by simp [kindCount, isKind]⟩
    · exact Or.inl ⟨rfl, by simp [kindCount, isKind],
        by simp [kindCount, isKind]⟩
    · exact Or.inl ⟨rfl, by simp [kindCount, isKind],
        by simp [kindCount, isKind]⟩
    · exact Or.inl ⟨rfl, by simp [kindCount, isKind],
        by simp [kindCount, isKind]⟩
    · refine Or.inr ⟨?_, ?_, saveFrames_metaBeforeFrame _ _ _ _ _⟩
      · rw [saveFrames_rc]
      · rw [saveFrames_meta_count]
        simp [kindCount, isKind]

/-- One `janus_recorder_save_frame` call preserves `MetaInv`. -/
theorem metaInv_step (r : Recorder) (t : List Ev) (p : Option (List Nat))
    (env : Env) (hI : MetaInv r t) :
    MetaInv (janus_recorder_save_frame r p env).rc
      (t ++ (janus_recorder_save_frame r p env).evs) := by
  obtain ⟨hfalse, htrue⟩ := hI
  rcases hr : r.header
  · obtain ⟨hm, hf⟩ := hfalse hr
    rcases save_frame_header_unset r p env hr with
      ⟨hrc, hm2, hf2⟩ | ⟨hh, hm2, hb2⟩
    · constructor
      · intro _
        constructor
        · rw [kindCount_append, hm, hm2]
        · rw [kindCount_append, hf, hf2]
      · intro hc
        rw [hrc, hr] at hc
        exact Bool.noConfusion hc
    · constructor
      · intro hc
        rw [hh] at hc
        exact Bool.noConfusion hc
      · intro _
        constructor
        · rw [kindCount_append, hm, hm2]
        · rw [metaBeforeFrame_append_of_silent t _ hm hf, hb2]
  · obtain ⟨hm, hb⟩ := htrue hr
    obtain ⟨hh, hm2⟩ := save_frame_header_set r p env hr
    constructor
    · intro hc
      rw [hh] at hc
      exact Bool.noConfusion hc
    · intro _
      constructor
      · rw [kindCount_append, hm, hm2]
      · exact metaBeforeFrame_append_of_meta t _ hb (by omega)

/-- Any serialized sequence of calls preserves `MetaInv`. -/
theorem metaInv_run (calls : List (Option (List Nat) × Env)) :
    ∀ (r : Recorder) (t : List Ev), MetaInv r t →
      MetaInv (runCalls r calls).1 (t ++ (runCalls r calls).2) := by
  induction calls with
  | nil =>
    intro r t h
    simpa [runCalls]
  | cons c rest ih =>
    intro r t h
    rcases c with ⟨p, env⟩
    have h2 := ih _ _ (metaInv_step r t p env h)
    simpa [runCalls, List.append_assoc] using h2

/-- C5: starting from a recorder whose metadata block is unwritten, any
serialized sequence of `janus_recorder_save_frame` calls (which is what
the per-recorder mutex reduces racing callers to) emits the metadata
block at most once, exactly once as soon as any frame record is
emitted, always strictly before the first frame tag, and the `header`
flag transitions false→true exactly when the single metadata write
happens (in particular at most once). -/
theorem save_frame_metadata_once (r0 : Recorder)
    (calls : List (Option (List Nat) × Env)) (h : r0.header = false) :
    kindCount .meta (runCalls r0 calls).2 ≤ 1 ∧
    (kindCount .ftag (runCalls r0 calls).2 ≠ 0 →
      kindCount .meta (runCalls r0 calls).2 = 1) ∧
    metaBeforeFrame (runCalls r0 calls).2 = true ∧
    ((runCalls r0 calls).1.header = true ↔
      kindCount .meta (runCalls r0 calls).2 = 1) := by
  have h0 : MetaInv r0 [] := by
    constructor
    · intro _
      exact ⟨rfl, rfl⟩
    · intro hc
      rw [h] at hc
      exact Bool.noConfusion hc
  have hI := metaInv_run calls r0 [] h0
  rw [List.nil_append] at hI
  obtain ⟨hfalse, htrue⟩ := hI
  rcases hh : (runCalls r0 calls).1.header
  · obtain ⟨hm, hf⟩ := hfalse hh
    refine ⟨by omega, fun hc => absurd hf hc,
      metaBeforeFrame_of_no_ftag _ hf, ?_⟩
    rw [hm]
    simp
  · obtain ⟨hm, hb⟩ := htrue hh
    refine ⟨by omega, fun _ => hm, hb, ?_⟩
    rw [hm]
    simp

/-- Witness for `save_frame_metadata_once`: two concrete calls on a
fresh audio recorder. -/
theorem save_frame_metadata_once_witness :
    kindCount .meta (runCalls ⟨.audio, 3, true, false⟩
      [(some [1], ⟨[2], 0, []⟩), (some [4], ⟨[5], 6, []⟩)]).2 ≤ 1 ∧
    (kindCount .ftag (runCalls ⟨.audio, 3, true, false⟩
      [(some [1], ⟨[2], 0, []⟩), (some [4], ⟨[5], 6, []⟩)]).2 ≠ 0 →
      kindCount .meta (runCalls ⟨.audio, 3, true, false⟩
        [(some [1], ⟨[2], 0, []⟩), (some [4], ⟨[5], 6, []⟩)]).2 = 1) ∧
    metaBeforeFrame (runCalls ⟨.audio, 3, true, false⟩
      [(some [1], ⟨[2], 0, []⟩), (some [4], ⟨[5], 6, []⟩)]).2 = true ∧
    ((runCalls ⟨.audio, 3, true, false⟩
      [(some [1], ⟨[2], 0, []⟩), (some [4], ⟨[5], 6, []⟩)]).1.header = true
      ↔ kindCount .meta (runCalls ⟨.audio, 3, true, false⟩
          [(some [1], ⟨[2], 0, []⟩), (some [4], ⟨[5], 6, []⟩)]).2 = 1) :=
  save_frame_metadata_once ⟨.audio, 3, true, false⟩
    [(some [1], ⟨[2], 0, []⟩), (some [4], ⟨[5], 6, []⟩)] rfl

/-! ### C8 — close is an idempotent test-and-set -/

/-- A second `janus_recorder_close` finds `writable` already unset and
returns -1 with no side effects. -/
theorem close_already_closed (p : Policy) (s : CloseState) (rok : Bool)
    (h : s.writable = false) :
    janus_recorder_close p s rok = (-1, s, []) := by
  unfold janus_recorder_close
  rw [if_pos h]

/-- A first `janus_recorder_close` on a writable recorder returns 0,
clears `writable`, and performs at most one socket close and at most
one rename. -/
theorem close_first (p : Policy) (s : CloseState) (rok : Bool)
    (h : s.writable = true) :
    (janus_recorder_close p s rok).1 = 0 ∧
    (janus_recorder_close p s rok).2.1.writable = false ∧
    ((janus_recorder_close p s rok).2.2.filter isCloseSock).length ≤ 1 ∧
    ((janus_recorder_close p s rok).2.2.filter isRename).length ≤ 1 := by
  simp only [janus_recorder_close]
  rw [if_neg (by simp [h])]
  split_ifs <;>
    simp [isCloseSock, isRename, List.filter_append]

/-- C8: `janus_recorder_close` atomically test-and-sets `writable` from
true to false: the first close returns 0, leaves `writable = false` and
performs the socket-close and rename side effects at most once each; a
second close then returns -1 (`AlreadyClosed`) and performs no side
effect at all, so the finalize/rename effects happen at most once in
total. -/
theorem close_twice (p : Policy) (s : CloseState) (rok1 rok2 : Bool)
    (h : s.writable = true) :
    (janus_recorder_close p s rok1).1 = 0 ∧
    (janus_recorder_close p s rok1).2.1.writable = false ∧
    ((janus_recorder_close p s rok1).2.2.filter isCloseSock).length ≤ 1 ∧
    ((janus_recorder_close p s rok1).2.2.filter isRename).length ≤ 1 ∧
    janus_recorder_close p (janus_recorder_close p s rok1).2.1 rok2
      = (-1, (janus_recorder_close p s rok1).2.1, []) := by
  obtain ⟨h0, hw, hc1, hr1⟩ := close_first p s rok1 h
  exact ⟨h0, hw, hc1, hr1, close_already_closed _ _ _ hw⟩

/-- Witness for `close_twice` on a concrete recorder state. -/
theorem close_twice_witness :
    (janus_recorder_close ⟨false, []⟩ ⟨true, 3, ['a'], none⟩ true).1 = 0 ∧
    (janus_recorder_close ⟨false, []⟩ ⟨true, 3, ['a'], none⟩
      true).2.1.writable = false ∧
    ((janus_recorder_close ⟨false, []⟩ ⟨true, 3, ['a'], none⟩
      true).2.2.filter isCloseSock).length ≤ 1 ∧
    ((janus_recorder_close ⟨false, []⟩ ⟨true, 3, ['a'], none⟩
      true).2.2.filter isRename).length ≤ 1 ∧
    janus_recorder_close ⟨false, []⟩
      (janus_recorder_close ⟨false, []⟩ ⟨true, 3, ['a'], none⟩ true).2.1
      false
      = (-1, (janus_recorder_close ⟨false, []⟩ ⟨true, 3, ['a'], none⟩
          true).2.1, []) :=
  close_twice ⟨false, []⟩ ⟨true, 3, ['a'], none⟩ true false rfl

/-! ### C9 — temp-name stripping on close -/

/-- Stripping the temporary extension: for a tagged name
`base ++ ".mjr." ++ ext` the `g_snprintf` size arithmetic of
record.c:384 yields exactly `base ++ ".mjr"`. -/
theorem stripTemp_tagged (base ext : List Char) :
    stripTemp (base ++ '.' :: 'm' :: 'j' :: 'r' :: '.' :: ext) ext
      = base ++ ['.', 'm', 'j', 'r'] := by
  unfold stripTemp
  have hsplit : base ++ '.' :: 'm' :: 'j' :: 'r' :: '.' :: ext
      = (base ++ ['.', 'm', 'j', 'r']) ++ ('.' :: ext) := by simp
  have hlen : (base ++ '.' :: 'm' :: 'j' :: 'r' :: '.' :: ext).length
      - ext.length - 1 = (base ++ ['.', 'm', 'j', 'r']).length := by
    simp
    omega
  rw [hlen, hsplit, List.take_left]

/-- C9: with the temp-name policy active, `janus_recorder_close`
derives the untagged name by stripping the temporary suffix (so
`base.mjr.ext` becomes `base.mjr`), issues a rename from the tagged
path to the untagged path, and stores the untagged name exactly when
the rename succeeds, keeping the tagged name when it fails. -/
theorem close_rename_strips_temp (base ext : List Char)
    (d : Option (List Char)) (sock : Int) (renameOk : Bool) :
    stripTemp (base ++ '.' :: 'm' :: 'j' :: 'r' :: '.' :: ext) ext
      = base ++ ['.', 'm', 'j', 'r'] ∧
    (janus_recorder_close ⟨true, ext⟩
      ⟨true, sock, base ++ '.' :: 'm' :: 'j' :: 'r' :: '.' :: ext, d⟩
      renameOk).2.2
      = (if sock > 0 then [CEv.closeSock] else []) ++
        [CEv.renameOp
          (fullPath d (base ++ '.' :: 'm' :: 'j' :: 'r' :: '.' :: ext))
          (fullPath d (base ++ ['.', 'm', 'j', 'r']))] ∧
    (janus_recorder_close ⟨true, ext⟩
      ⟨true, sock, base ++ '.' :: 'm' :: 'j' :: 'r' :: '.' :: ext, d⟩
      renameOk).2.1.filename
      = (if renameOk then base ++ ['.', 'm', 'j', 'r']
         else base ++ '.' :: 'm' :: 'j' :: 'r' :: '.' :: ext) := by
  refine ⟨stripTemp_tagged base ext, ?_, ?_⟩ <;>
  · simp only [janus_recorder_close]
    rw [if_neg (by simp)]
    rcases renameOk <;>
      simp [stripTemp_tagged base ext]

end Record
